import Mathlib

/-!
Shallow embedding of the SafeChat moderation core
(`backend/moderation/ai_detector.py` and
`backend/moderation/speech_consumer.py`) and proofs about it.

Python floats are modelled by `Rat` (all constants in the source are small
decimals), Python strings by `String`/`List Char`, wall-clock instants by
`Nat`, and the ORM tables by in-memory lists.  Python's `str.lower`, `\w`
and `\s` are Unicode-aware; the model uses the ASCII versions from Lean
core, which agree with the source on every constant appearing in it.
-/

namespace SafeChat

/-- Python regex word character class (backslash-w): alphanumeric or underscore. -/
def isWordChar (c : Char) : Bool := c.isAlphanum || c == '_'

/-- Word-character test on an optional character; `none` (edge of string) is non-word. -/
def wordB : Option Char → Bool
  | none => false
  | some c => isWordChar c

/-- Test that `w` is a literal prefix of `t`. -/
def subAt : List Char → List Char → Bool
  | [], _ => true
  | _ :: _, [] => false
  | c :: ws, t :: ts => c == t && subAt ws ts

/-- Python's substring containment `w in t`. -/
def containsSub (w : List Char) : List Char → Bool
  | [] => subAt w []
  | t :: ts => subAt w (t :: ts) || containsSub w ts

/-- Remainder of `t` after consuming literal `w`, when `w` is a prefix. -/
def litHere : List Char → List Char → Option (List Char)
  | [], t => some t
  | _ :: _, [] => none
  | c :: ws, t :: ts => if c == t then litHere ws ts else none

/-- Matcher for the tail of `make_fuzzy_pattern`: the remaining word characters
`ws`, each preceded by a run of non-word characters (the pattern interleaves
each pair of characters with backslash-W star).  Returns the unconsumed text on
success; backtracks over the length of each non-word run. -/
def fuzzyTail : List Char → List Char → Option (List Char)
  | [], text => some text
  | _ :: _, [] => none
  | c :: ws, t :: rest =>
    if t == c then
      match fuzzyTail ws rest with
      | some r => some r
      | none => if isWordChar t then none else fuzzyTail (c :: ws) rest
    else if isWordChar t then none
    else fuzzyTail (c :: ws) rest

/-- The fuzzy pattern (word boundary, the characters of `w` separated by
non-word runs, word boundary) matched at the current position; `prev` is the
character immediately before that position. -/
def fuzzyHere (w : List Char) (prev : Option Char) (text : List Char) : Bool :=
  match w, text with
  | c :: ws, t :: rest =>
    (t == c) && (wordB prev != isWordChar t) &&
      (match fuzzyTail ws rest with
       | some r => (isWordChar (((c :: ws).getLast?).getD c)) != wordB r.head?
       | none => false)
  | _, _ => false

/-- Search loop of `re.search` for the fuzzy pattern: try every start position. -/
def fuzzySearchAux (w : List Char) : Option Char → List Char → Bool
  | _, [] => false
  | prev, t :: rest => fuzzyHere w prev (t :: rest) || fuzzySearchAux w (some t) rest

/-- Search for `make_fuzzy_pattern(w)` anywhere in `text`. -/
def fuzzySearch (w text : List Char) : Bool := fuzzySearchAux w none text

/-- Literal word with word boundaries on both sides, matched at the current position. -/
def boundHere (w : List Char) (prev : Option Char) (text : List Char) : Bool :=
  match w with
  | [] => false
  | c :: ws =>
    (wordB prev != isWordChar c) &&
      (match litHere (c :: ws) text with
       | some r => (isWordChar (((c :: ws).getLast?).getD c)) != wordB r.head?
       | none => false)

/-- Search loop for a boundaried literal word. -/
def boundSearchAux (w : List Char) : Option Char → List Char → Bool
  | _, [] => false
  | prev, t :: rest => boundHere w prev (t :: rest) || boundSearchAux w (some t) rest

/-- Search for a boundaried literal word anywhere in `text`. -/
def boundSearch (w text : List Char) : Bool := boundSearchAux w none text

/-- Matcher at one position for the harassment pattern matching the word fuck
with an optional ing suffix, bounded by word boundaries on both sides. -/
def fuckHere (prev : Option Char) (text : List Char) : Bool :=
  !wordB prev &&
    (match litHere ("fuck".data) text with
     | some r =>
       !wordB r.head? ||
         (match litHere ("ing".data) r with
          | some r2 => !wordB r2.head?
          | none => false)
     | none => false)

/-- Search loop for the fuck-with-optional-ing harassment pattern. -/
def fuckSearchAux : Option Char → List Char → Bool
  | _, [] => false
  | prev, t :: rest => fuckHere prev (t :: rest) || fuckSearchAux (some t) rest

/-- Search anywhere for the fuck-with-optional-ing harassment pattern. -/
def fuckSearch (text : List Char) : Bool := fuckSearchAux none text

/-- Drop leading whitespace characters. -/
def skipWS : List Char → List Char
  | [] => []
  | t :: rest => if t.isWhitespace then skipWS rest else t :: rest

/-- Matcher at one position for the pattern you, one or more whitespace
characters, suck (since the letter s is not whitespace, the whitespace run
must be maximal, so no backtracking is needed). -/
def youSuckHere (text : List Char) : Bool :=
  match litHere ("you".data) text with
  | some (t :: rest) => t.isWhitespace && (litHere ("suck".data) (skipWS rest)).isSome
  | _ => false

/-- Search anywhere for the you-whitespace-suck harassment pattern. -/
def youSuckSearch : List Char → Bool
  | [] => false
  | t :: rest => youSuckHere (t :: rest) || youSuckSearch rest

/-- Number of harassment patterns of `KeywordDetector` that match `text`.
The five patterns of the source, in order: boundaried kys; the literal
go die; fuck with optional ing suffix, boundaried; you-whitespace-suck;
kill with an optional whitespace-yourself suffix.  The last pattern has no
boundaries and its optional suffix only extends a match, so it matches
exactly when the literal kill occurs. -/
def harassmentCount (text : List Char) : Nat :=
  ([boundSearch ("kys".data) text,
    containsSub ("go die".data) text,
    fuckSearch text,
    youSuckSearch text,
    containsSub ("kill".data) text].filter id).length

/-- High-severity lexicon of `KeywordDetector.__init__`. -/
def toxic_keywords_high : List String :=
  ["hate", "kill", "die", "death", "nazi", "terrorist",
   "rape", "murder", "violence", "abuse", "attack"]

/-- Medium-severity lexicon of `KeywordDetector.__init__`. -/
def toxic_keywords_medium : List String :=
  ["stupid", "idiot", "dumb", "moron", "loser", "pathetic",
   "trash", "garbage", "worthless", "useless", "disgusting",
   "fuck", "shit", "bitch", "asshole", "fucking"]

/-- Low-severity lexicon of `KeywordDetector.__init__`. -/
def toxic_keywords_low : List String :=
  ["shut up", "annoying", "boring", "lame",
   "bad", "terrible", "awful", "horrible"]

/-- One lexicon keyword matches: literal substring or fuzzy pattern
(the disjunction in `KeywordDetector.detect`). -/
def kwMatch (kw : String) (tl : List Char) : Bool :=
  containsSub kw.data tl || fuzzySearch kw.data tl

/-- Number of keywords of one tier that match the lowercased text. -/
def tierCount (kws : List String) (tl : List Char) : Nat :=
  (kws.filter (fun kw => kwMatch kw tl)).length

/-- The three severity counters (high, medium, low) accumulated by
`KeywordDetector.detect`: one increment per matching lexicon keyword of the
tier, plus one increment of the high counter per matching harassment pattern. -/
def severityCounts (tl : List Char) : Nat × Nat × Nat :=
  (tierCount toxic_keywords_high tl + harassmentCount tl,
   tierCount toxic_keywords_medium tl,
   tierCount toxic_keywords_low tl)

/-- Python's str.lower, as a list of characters (ASCII model). -/
def strLower (s : String) : List Char := s.data.map Char.toLower

/-- Python's str.strip with no arguments: drop leading and trailing whitespace. -/
def pyStrip (s : String) : String :=
  ⟨((s.data.dropWhile Char.isWhitespace).reverse.dropWhile Char.isWhitespace).reverse⟩

/-- Canonical classification result: the dict every detector returns. -/
structure ClassificationResult where
  is_toxic : Bool
  toxicity_score : Rat
  categories : List (String × Rat)
  detected_words : List String
  method : String
deriving DecidableEq, Repr

/-! Kernel-reducible rational arithmetic.  The standard `Rat.add`, `Rat.mul`
and `Rat.div` are `@[irreducible]`, which blocks `decide` on any concrete run
of the model; the wrappers below compute the same values through the reducible
smart constructors `mkRat` and `Rat.divInt`, and are proved equal to the
standard operations. -/

/-- Addition of rationals in kernel-reducible form. -/
def pyAdd (a b : Rat) : Rat := mkRat (a.num * b.den + b.num * a.den) (a.den * b.den)

/-- Multiplication of rationals in kernel-reducible form. -/
def pyMul (a b : Rat) : Rat := mkRat (a.num * b.num) (a.den * b.den)

/-- Division of rationals in kernel-reducible form. -/
def pyDiv (a b : Rat) : Rat := Rat.divInt (a.num * b.den) (a.den * b.num)

/-- The Python float constant 0.6 as a rational. -/
def q06 : Rat := mkRat 6 10

/-- The Python float constant 0.3 as a rational. -/
def q03 : Rat := mkRat 3 10

/-- The weighted severity sum of `KeywordDetector.detect`:
high times 1.0 plus medium times 0.6 plus low times 0.3. -/
def keywordWeighted (h m l : Nat) : Rat :=
  pyAdd (pyAdd (pyMul (h : Rat) 1) (pyMul (m : Rat) q06)) (pyMul (l : Rat) q03)

/-- Python's two-argument min on rationals (kernel-reducible form). -/
def ratMin (a b : Rat) : Rat := if a ≤ b then a else b

/-- The detected-words list of `KeywordDetector.detect`: matching keywords in
tier order, then one sentinel per matching harassment pattern. -/
def detectedWords (tl : List Char) : List String :=
  (toxic_keywords_high.filter (fun kw => kwMatch kw tl)) ++
  (toxic_keywords_medium.filter (fun kw => kwMatch kw tl)) ++
  (toxic_keywords_low.filter (fun kw => kwMatch kw tl)) ++
  List.replicate (harassmentCount tl) "harassment_pattern"

namespace KeywordDetector

/-- Embedding of `KeywordDetector.detect`. -/
def detect (text : String) : ClassificationResult :=
  let tl := strLower text
  let sc := severityCounts tl
  let toxicity_score := ratMin (pyDiv (keywordWeighted sc.1 sc.2.1 sc.2.2) 3) 1
  { is_toxic := decide (toxicity_score > q03)
    toxicity_score := toxicity_score
    categories := [("high", (sc.1 : Rat)), ("medium", (sc.2.1 : Rat)), ("low", (sc.2.2 : Rat))]
    detected_words := detectedWords tl
    method := "keyword" }

end KeywordDetector

/-- The Python float constant 0.5 as a rational. -/
def q05 : Rat := mkRat 5 10

/-- The Python float constant 0.7 as a rational. -/
def q07 : Rat := mkRat 7 10

/-- Python's max over a list of floats; the guarded form
max of the values when the mapping is nonempty, 0.0 otherwise. -/
def maxVals : List Rat → Rat
  | [] => 0
  | x :: xs => xs.foldl (fun a b => if a < b then b else a) x

namespace TransformerDetector

/-- Embedding of `TransformerDetector.detect`.  The classifier state is
`none` when the model failed to load or inference raised (both fall back to
`KeywordDetector`); otherwise `some results` is the provider's label/score
list.  The Python dict comprehension keyed on lowercased labels keeps the
last entry for a duplicated key. -/
def detect (classifierOut : Option (List (String × Rat))) (text : String) :
    ClassificationResult :=
  match classifierOut with
  | none => KeywordDetector.detect text
  | some results =>
    let scores := results.map (fun p => ((⟨strLower p.1⟩ : String), p.2))
    let toxicity_score := ((scores.reverse.find? (fun p => p.1 == "toxic")).map Prod.snd).getD 0
    { is_toxic := decide (toxicity_score > q05)
      toxicity_score := toxicity_score
      categories := scores
      detected_words := []
      method := "transformer" }

end TransformerDetector

namespace APIDetector

/-- Embedding of `APIDetector._process_results`, applied to the remote
response: its flagged bit and its per-category score mapping.  The source
tolerates three response shapes (attribute dict, model-dump method, plain
mapping); all three produce the same category-to-score mapping, which is the
`scores` argument here. -/
def process_results (flagged : Bool) (scores : List (String × Rat)) :
    ClassificationResult :=
  let toxicity_score := if scores.isEmpty then 0 else maxVals (scores.map Prod.snd)
  if flagged then
    { is_toxic := true
      toxicity_score := toxicity_score
      categories := scores
      detected_words := (scores.filter (fun p => decide (p.2 > q05))).map Prod.fst
      method := "openai_moderation" }
  else
    let high_score_categories := (scores.filter (fun p => decide (p.2 > q07))).map Prod.fst
    if high_score_categories.isEmpty then
      { is_toxic := false
        toxicity_score := toxicity_score
        categories := scores
        detected_words := []
        method := "openai_moderation" }
    else
      { is_toxic := true
        toxicity_score := toxicity_score
        categories := scores
        detected_words := high_score_categories
        method := "openai_moderation" }

end APIDetector

/-- Outcome of one remote moderation call: a response, or a raised exception
whose message is `msg`. -/
inductive CallOutcome where
  | success (flagged : Bool) (scores : List (String × Rat))
  | failure (msg : String)
deriving DecidableEq, Repr

/-- The retry condition of the source: the message lowercased contains
too many requests, or the raw message contains 429. -/
def rateLimited (msg : String) : Bool :=
  containsSub ("too many requests".data) (strLower msg) ||
  containsSub ("429".data) msg.data

/-- Observable behaviour of one run of the retry loop: how many attempts were
made, which backoff sleeps happened between them (in order), and the returned
classification. -/
structure LoopTrace where
  attempts : Nat
  delays : List Nat
  result : ClassificationResult
deriving DecidableEq, Repr

namespace APIDetector

/-- The attempt budget of `_openai_moderation_sync` and async. -/
def max_attempts : Nat := 3

/-- The loop body of `_openai_moderation_sync` and `_openai_moderation_async`
(their control flow is identical; only the sleeping primitive differs).
`fuel` counts the attempts still allowed including the current one; because
recursion is guarded by `attempt < max_attempts`, fuel starting at
`max_attempts` with `attempt = 1` never runs out. -/
def moderationGo (text : String) (outcomes : Nat → CallOutcome) :
    Nat → Nat → Nat → List Nat → LoopTrace
  | 0, attempt, _, delays => ⟨attempt - 1, delays.reverse, KeywordDetector.detect text⟩
  | fuel + 1, attempt, backoff, delays =>
    match outcomes attempt with
    | .success flagged scores =>
      ⟨attempt, delays.reverse, process_results flagged scores⟩
    | .failure msg =>
      if attempt < max_attempts && rateLimited msg then
        moderationGo text outcomes fuel (attempt + 1) (backoff * 2) (backoff :: delays)
      else
        ⟨attempt, delays.reverse, KeywordDetector.detect text⟩

/-- Embedding of `_openai_moderation_sync` / `_openai_moderation_async`:
up to 3 attempts starting with backoff 1, doubling after each retried
rate-limit failure. -/
def openai_moderation (text : String) (outcomes : Nat → CallOutcome) : LoopTrace :=
  moderationGo text outcomes max_attempts 1 1 []

/-- Embedding of `APIDetector.detect` / `detect_async`: with no API key the
keyword fallback is returned with no remote attempt; otherwise the retry loop
runs. -/
def detect (api_key : Option String) (text : String) (outcomes : Nat → CallOutcome) :
    LoopTrace :=
  match api_key with
  | none => ⟨0, [], KeywordDetector.detect text⟩
  | some _ => openai_moderation text outcomes

end APIDetector

/-! Fact-check client, `is_factually_correct` / `is_factually_correct_async`
(both run the identical decision logic on the response). -/

/-- One entry of a claim's claimReview list. -/
structure ClaimReview where
  textualRating : String
  publisherName : String
deriving DecidableEq, Repr

/-- One claim returned by the claim-search service. -/
structure FCClaim where
  claimReview : List ClaimReview
deriving DecidableEq, Repr

/-- The denylist of falsity indicators of the source. -/
def false_keywords : List String :=
  ["false", "incorrect", "misleading", "fake", "rumor", "untrue", "error"]

/-- The single-quote character, used in the reason string. -/
def quoteChar : Char := Char.ofNat 39

/-- The reason string built by the source for a matched rating. -/
def mkReason (rating publisher : String) : String :=
  "Fact Check: This claim was rated " ++ String.singleton quoteChar ++ rating ++
    String.singleton quoteChar ++ " by " ++ publisher ++ "."

/-- Lowercased textual rating of a review. -/
def ratingOf (r : ClaimReview) : String := ⟨strLower r.textualRating⟩

/-- Test whether a (lowercased) rating contains some denylisted keyword. -/
def ratingFlagged (rating : String) : Bool :=
  false_keywords.any (fun k => containsSub k.data rating.data)

/-- The claim loop of `is_factually_correct`: scan claims in order; a claim
with an empty review list is skipped; the first claim whose first review's
lowercased rating contains a denylisted keyword yields not-correct with the
reason naming that rating and publisher. -/
def checkClaims : List FCClaim → Bool × String
  | [] => (true, "")
  | c :: rest =>
    match c.claimReview with
    | [] => checkClaims rest
    | r :: _ =>
      let rating := ratingOf r
      if ratingFlagged rating then (false, mkReason rating r.publisherName)
      else checkClaims rest

/-- Embedding of `is_factually_correct` / `is_factually_correct_async`:
`api_key` is the configured credential, `call` the outcome of the external
request (an exception, or the parsed claims list). -/
def is_factually_correct (api_key : Option String)
    (call : Except Unit (List FCClaim)) : Bool × String :=
  match api_key with
  | none => (true, "")
  | some _ =>
    match call with
    | .error _ => (true, "")
    | .ok claims =>
      if claims.isEmpty then (true, "")
      else checkClaims claims

/-! The violation escalation engine, `SpeechModerationConsumer`.  The ORM
tables `SpeechViolation`, `StreamTimeout` and `chat.Stream` are modelled as
in-memory lists; wall-clock instants as naturals. -/

/-- A persisted speech violation row. -/
structure SpeechViolation where
  user_id : Nat
  stream_id : Nat
  transcript : String
  toxicity_score : Rat
  detected_words : List String
  violation_type : String
deriving DecidableEq, Repr

/-- A persisted stream timeout row. -/
structure StreamTimeout where
  user_id : Nat
  stream_id : Nat
  duration_seconds : Nat
  expires_at : Nat
  is_active : Bool
deriving DecidableEq, Repr

/-- A stream row (the fields the engine touches). -/
structure Stream where
  id : Nat
  status : String
  ended_at : Option Nat
deriving DecidableEq, Repr

/-- The persisted state the consumer reads and writes. -/
structure ModState where
  violations : List SpeechViolation
  timeouts : List StreamTimeout
  streams : List Stream
deriving DecidableEq, Repr

/-- Delivery target of an outbound notification: the originating client's
socket (`self.send`) or the stream's channel group (`group_send`, which the
transport offers for broadcasting to all participants). -/
inductive Target where
  | sender
  | group
deriving DecidableEq, Repr

/-- Outbound notification payloads of the consumer. -/
inductive Notif where
  | timeout_active (message : String)
  | speech_toxic (transcript : String) (warning_number : Nat)
  | speech_warning (warning_number : Nat)
  | speech_timeout (warning_number : Nat) (timeout_duration : Nat)
  | stream_stopped (reason : String)
  | speech_clean (transcript : String)
  | error (message : String)
deriving DecidableEq, Repr

/-- One delivered notification with its target. -/
structure Sent where
  target : Target
  notif : Notif
deriving DecidableEq, Repr

/-- An incoming websocket event (parsed payload). -/
structure Event where
  type : String
  transcript : String
  user_id : Nat
  stream_id : Nat
deriving DecidableEq, Repr

/-- Result of processing one event: the new persisted state, the
notifications sent in order, and whether the moderation classifier ran. -/
structure RecvOut where
  state : ModState
  sent : List Sent
  classified : Bool
deriving DecidableEq, Repr

namespace SpeechModerationConsumer

/-- Embedding of `get_violation_count`: count of violation rows for the key. -/
def get_violation_count (st : ModState) (user_id stream_id : Nat) : Nat :=
  (st.violations.filter
    (fun v => v.user_id == user_id && v.stream_id == stream_id)).length

/-- Embedding of `check_timeout`: an active timeout row for the key whose
expiry is strictly in the future. -/
def check_timeout (st : ModState) (now user_id stream_id : Nat) : Bool :=
  st.timeouts.any (fun t =>
    t.user_id == user_id && t.stream_id == stream_id && t.is_active &&
      decide (now < t.expires_at))

/-- The violation kind chosen by `log_violation` from the fresh count. -/
def violationTypeFor (violation_count : Nat) : String :=
  if violation_count == 2 then "timeout"
  else if 3 ≤ violation_count then "stream_stop"
  else "warning"

/-- Embedding of `log_violation`: append one violation row. -/
def log_violation (st : ModState) (user_id stream_id : Nat) (transcript : String)
    (toxicity_score : Rat) (detected_words : List String)
    (violation_count : Nat) : ModState :=
  { st with violations := st.violations ++
      [{ user_id := user_id, stream_id := stream_id, transcript := transcript,
         toxicity_score := toxicity_score, detected_words := detected_words,
         violation_type := violationTypeFor violation_count }] }

/-- Embedding of `issue_timeout`: append an active timeout row expiring
`duration_seconds` from now. -/
def issue_timeout (st : ModState) (now user_id stream_id duration_seconds : Nat) :
    ModState :=
  { st with timeouts := st.timeouts ++
      [{ user_id := user_id, stream_id := stream_id,
         duration_seconds := duration_seconds,
         expires_at := now + duration_seconds, is_active := true }] }

/-- Embedding of `stop_stream`: set the stream's status to ended and stamp the
end time; a missing stream id is a no-op. -/
def stop_stream (st : ModState) (now stream_id : Nat) : ModState :=
  { st with streams := st.streams.map (fun s =>
      if s.id == stream_id then { s with status := "ended", ended_at := some now }
      else s) }

/-- The fixed timeout duration of the source. -/
def timeout_seconds : Nat := 60

/-- Embedding of `SpeechModerationConsumer.receive` on a parsed payload.
`classify` is the detector `run_moderation` consults (chosen by environment
configuration in the source); `now` the current wall-clock instant.  The
`classified` flag records whether the moderation call was reached.  The
source computes the fresh violation count before logging the new row, sends
the enforcement notifications first and persists the row afterwards, with
persistence failures swallowed; the model performs the same steps in the
same order. -/
def receive (classify : String → ClassificationResult) (st : ModState) (now : Nat)
    (ev : Event) : RecvOut :=
  if ev.type ≠ "speech_transcript" then ⟨st, [], false⟩
  else
    let transcript := pyStrip ev.transcript
    if transcript = "" then ⟨st, [], false⟩
    else if check_timeout st now ev.user_id ev.stream_id then
      ⟨st, [⟨.sender, .timeout_active "You are currently timed out and cannot speak"⟩],
        false⟩
    else
      let result := classify transcript
      if result.is_toxic then
        let current_count := get_violation_count st ev.user_id ev.stream_id
        let new_count := current_count + 1
        let toxic_send : Sent := ⟨.sender, .speech_toxic transcript new_count⟩
        if new_count = 1 then
          ⟨log_violation st ev.user_id ev.stream_id transcript result.toxicity_score
             result.detected_words new_count,
           [toxic_send, ⟨.sender, .speech_warning new_count⟩], true⟩
        else if new_count = 2 then
          ⟨log_violation (issue_timeout st now ev.user_id ev.stream_id timeout_seconds)
             ev.user_id ev.stream_id transcript result.toxicity_score
             result.detected_words new_count,
           [toxic_send, ⟨.sender, .speech_timeout new_count timeout_seconds⟩], true⟩
        else
          ⟨log_violation (stop_stream st now ev.stream_id)
             ev.user_id ev.stream_id transcript result.toxicity_score
             result.detected_words new_count,
           [toxic_send, ⟨.sender, .stream_stopped "Three speech violations detected"⟩],
           true⟩
      else
        ⟨st, [⟨.sender, .speech_clean transcript⟩], true⟩

end SpeechModerationConsumer

/-! Concrete fixtures used by counterexamples and witnesses. -/

/-- A fixed toxic classification result. -/
def exToxic : ClassificationResult :=
  { is_toxic := true, toxicity_score := 1, categories := [],
    detected_words := ["kill"], method := "keyword" }

/-- A detector that classifies everything as `exToxic`. -/
def exClassify : String → ClassificationResult := fun _ => exToxic

/-- A live stream with id 1. -/
def exStream : Stream := { id := 1, status := "live", ended_at := none }

/-- A violation row of the given kind for user 1 in stream 1. -/
def exViol (vt : String) : SpeechViolation :=
  { user_id := 1, stream_id := 1, transcript := "kill", toxicity_score := 1,
    detected_words := ["kill"], violation_type := vt }

/-- State with `n` prior warning rows for user 1 in stream 1, no timeouts. -/
def exState (n : Nat) : ModState :=
  { violations := List.replicate n (exViol "warning"), timeouts := [],
    streams := [exStream] }

/-- A toxic transcript event from user 1 in stream 1. -/
def exEvent : Event :=
  { type := "speech_transcript", transcript := "kill", user_id := 1, stream_id := 1 }

/-- A currently active timeout row for user 1 in stream 1, expiring at 100. -/
def exTimeout : StreamTimeout :=
  { user_id := 1, stream_id := 1, duration_seconds := 60, expires_at := 100,
    is_active := true }

/-- State with an active timeout for user 1 in stream 1 and no violations. -/
def exStateTO : ModState := { violations := [], timeouts := [exTimeout], streams := [exStream] }

/-! Branch-characterization lemmas for `receive`. -/

/-! Helper lemmas about `maxVals`. -/

/-- A provider that always fails with an HTTP 429 message. -/
def ex429 : Nat → CallOutcome := fun _ => .failure "HTTP 429 Too Many Requests"

/-- The verdict of the first review of a claim (false when it has none):
whether its lowercased rating contains a denylisted keyword. -/
def firstReviewFlagged (c : FCClaim) : Bool :=
  match c.claimReview with
  | [] => false
  | r :: _ => ratingFlagged (ratingOf r)


theorem pyAdd_eq (a b : Rat) : pyAdd a b = a + b := by
  rw [pyAdd, Rat.add_def']

theorem pyMul_eq (a b : Rat) : pyMul a b = a * b := by
  rw [pyMul, Rat.mul_def, Rat.normalize_eq_mkRat]

theorem pyDiv_eq (a b : Rat) : pyDiv a b = a / b := by
  rw [pyDiv, Rat.div_def']

theorem q06_eq : q06 = 6 / 10 := by norm_num [q06, Rat.mkRat_eq_divInt, Rat.divInt_eq_div]

theorem q03_eq : q03 = 3 / 10 := by norm_num [q03, Rat.mkRat_eq_divInt, Rat.divInt_eq_div]

theorem keywordWeighted_eq (h m l : Nat) :
    keywordWeighted h m l = (h : Rat) * 1 + (m : Rat) * (6 / 10) + (l : Rat) * (3 / 10) := by
  rw [keywordWeighted, pyAdd_eq, pyAdd_eq, pyMul_eq, pyMul_eq, pyMul_eq, q06_eq, q03_eq]

theorem ratMin_eq_min (a b : Rat) : ratMin a b = min a b := by
  simp [ratMin, min_def]

example : (KeywordDetector.detect "").toxicity_score = 0 := by decide

example : (KeywordDetector.detect "kill").toxicity_score = mkRat 2 3 := by decide

example : (KeywordDetector.detect "k.i.l.l").is_toxic = true := by decide

example : (KeywordDetector.detect "hello there").is_toxic = false := by decide

example : (KeywordDetector.detect "you are stupid").toxicity_score = mkRat 1 5 := by decide

example : (KeywordDetector.detect "shut up you are stupid").toxicity_score = mkRat 3 10 := by decide

example : (KeywordDetector.detect "shut up you are stupid").is_toxic = false := by decide

theorem q05_eq : q05 = 5 / 10 := by norm_num [q05, Rat.mkRat_eq_divInt, Rat.divInt_eq_div]

theorem q07_eq : q07 = 7 / 10 := by norm_num [q07, Rat.mkRat_eq_divInt, Rat.divInt_eq_div]

example : (pyStrip "  " = "") := by decide

example : (pyStrip "kill" = "kill") := by decide

example : (SpeechModerationConsumer.receive exClassify (exState 0) 0 exEvent).sent =
    [⟨.sender, .speech_toxic "kill" 1⟩, ⟨.sender, .speech_warning 1⟩] := by decide

example : (SpeechModerationConsumer.receive exClassify (exState 1) 0 exEvent).sent =
    [⟨.sender, .speech_toxic "kill" 2⟩, ⟨.sender, .speech_timeout 2 60⟩] := by decide

example : (SpeechModerationConsumer.receive exClassify (exState 2) 0 exEvent).state.streams =
    [{ id := 1, status := "ended", ended_at := some 0 }] := by decide

namespace SpeechModerationConsumer

theorem receive_toxic_warning (classify : String → ClassificationResult)
    (st : ModState) (now : Nat) (ev : Event)
    (htype : ev.type = "speech_transcript")
    (htr : pyStrip ev.transcript ≠ "")
    (hct : check_timeout st now ev.user_id ev.stream_id = false)
    (htox : (classify (pyStrip ev.transcript)).is_toxic = true)
    (hn : get_violation_count st ev.user_id ev.stream_id = 0) :
    receive classify st now ev =
      ⟨log_violation st ev.user_id ev.stream_id (pyStrip ev.transcript)
         (classify (pyStrip ev.transcript)).toxicity_score
         (classify (pyStrip ev.transcript)).detected_words 1,
       [⟨.sender, .speech_toxic (pyStrip ev.transcript) 1⟩,
        ⟨.sender, .speech_warning 1⟩], true⟩ := by
  unfold receive
  simp [htype, htr, hct, htox, hn]

theorem receive_toxic_timeout (classify : String → ClassificationResult)
    (st : ModState) (now : Nat) (ev : Event)
    (htype : ev.type = "speech_transcript")
    (htr : pyStrip ev.transcript ≠ "")
    (hct : check_timeout st now ev.user_id ev.stream_id = false)
    (htox : (classify (pyStrip ev.transcript)).is_toxic = true)
    (hn : get_violation_count st ev.user_id ev.stream_id = 1) :
    receive classify st now ev =
      ⟨log_violation (issue_timeout st now ev.user_id ev.stream_id timeout_seconds)
         ev.user_id ev.stream_id (pyStrip ev.transcript)
         (classify (pyStrip ev.transcript)).toxicity_score
         (classify (pyStrip ev.transcript)).detected_words 2,
       [⟨.sender, .speech_toxic (pyStrip ev.transcript) 2⟩,
        ⟨.sender, .speech_timeout 2 timeout_seconds⟩], true⟩ := by
  unfold receive
  simp [htype, htr, hct, htox, hn]

theorem receive_toxic_stop (classify : String → ClassificationResult)
    (st : ModState) (now : Nat) (ev : Event)
    (htype : ev.type = "speech_transcript")
    (htr : pyStrip ev.transcript ≠ "")
    (hct : check_timeout st now ev.user_id ev.stream_id = false)
    (htox : (classify (pyStrip ev.transcript)).is_toxic = true)
    (hn : 2 ≤ get_violation_count st ev.user_id ev.stream_id) :
    receive classify st now ev =
      ⟨log_violation (stop_stream st now ev.stream_id)
         ev.user_id ev.stream_id (pyStrip ev.transcript)
         (classify (pyStrip ev.transcript)).toxicity_score
         (classify (pyStrip ev.transcript)).detected_words
         (get_violation_count st ev.user_id ev.stream_id + 1),
       [⟨.sender, .speech_toxic (pyStrip ev.transcript)
           (get_violation_count st ev.user_id ev.stream_id + 1)⟩,
        ⟨.sender, .stream_stopped "Three speech violations detected"⟩], true⟩ := by
  have h1 : get_violation_count st ev.user_id ev.stream_id + 1 ≠ 1 := by omega
  have h2 : get_violation_count st ev.user_id ev.stream_id + 1 ≠ 2 := by omega
  unfold receive
  simp [htype, htr, hct, htox, h1, h2]

end SpeechModerationConsumer

/-- C10: a `speech_transcript` event whose transcript is empty after stripping
is dropped: no notification, no classification, no state change. -/
theorem C10_blank_transcript (classify : String → ClassificationResult)
    (st : ModState) (now : Nat) (ev : Event)
    (htype : ev.type = "speech_transcript")
    (htr : pyStrip ev.transcript = "") :
    SpeechModerationConsumer.receive classify st now ev = ⟨st, [], false⟩ := by
  unfold SpeechModerationConsumer.receive
  simp [htype, htr]

/-- Witness for C10 at a whitespace-only transcript. -/
theorem C10_witness :
    SpeechModerationConsumer.receive exClassify (exState 0) 0
      { type := "speech_transcript", transcript := "   ", user_id := 1, stream_id := 1 } =
      ⟨exState 0, [], false⟩ :=
  C10_blank_transcript exClassify (exState 0) 0 _ rfl (by decide)

/-- C6: with an active unexpired timeout row for the key, processing a new
utterance performs no classification, changes no state, and emits exactly a
`timeout_active` notification. -/
theorem C6_timeout_gating (classify : String → ClassificationResult)
    (st : ModState) (now : Nat) (ev : Event)
    (htype : ev.type = "speech_transcript")
    (htr : pyStrip ev.transcript ≠ "")
    (hto : ∃ t ∈ st.timeouts, t.user_id = ev.user_id ∧ t.stream_id = ev.stream_id ∧
      t.is_active = true ∧ now < t.expires_at) :
    SpeechModerationConsumer.receive classify st now ev =
      ⟨st, [⟨.sender, .timeout_active "You are currently timed out and cannot speak"⟩],
        false⟩ := by
  have hct : SpeechModerationConsumer.check_timeout st now ev.user_id ev.stream_id = true := by
    obtain ⟨t, ht, h1, h2, h3, h4⟩ := hto
    unfold SpeechModerationConsumer.check_timeout
    rw [List.any_eq_true]
    exact ⟨t, ht, by simp [h1, h2, h3, h4]⟩
  unfold SpeechModerationConsumer.receive
  simp [htype, htr, hct]

/-- Witness for C6: user 1 is timed out until 100, the event arrives at 0. -/
theorem C6_witness :
    SpeechModerationConsumer.receive exClassify exStateTO 0 exEvent =
      ⟨exStateTO,
       [⟨.sender, .timeout_active "You are currently timed out and cannot speak"⟩],
       false⟩ :=
  C6_timeout_gating exClassify exStateTO 0 exEvent rfl (by decide) (by decide)

/-- C5: the keyword score is the weighted severity sum over the accumulated
tier counters, divided by 3 and clamped at 1; toxicity holds exactly above
3/10; the empty text scores 0 and is not toxic. -/
theorem C5_keyword_scoring :
    (∀ text : String,
      (KeywordDetector.detect text).toxicity_score =
        min ((((severityCounts (strLower text)).1 : Rat) * 1 +
              ((severityCounts (strLower text)).2.1 : Rat) * (6 / 10) +
              ((severityCounts (strLower text)).2.2 : Rat) * (3 / 10)) / 3) 1 ∧
      ((KeywordDetector.detect text).is_toxic = true ↔
        (KeywordDetector.detect text).toxicity_score > 3 / 10)) ∧
    (KeywordDetector.detect "").toxicity_score = 0 ∧
    (KeywordDetector.detect "").is_toxic = false := by
  refine ⟨fun text => ⟨?_, ?_⟩, by decide, by decide⟩
  · show ratMin (pyDiv (keywordWeighted _ _ _) 3) 1 = _
    rw [ratMin_eq_min, pyDiv_eq, keywordWeighted_eq]
  · show decide (ratMin (pyDiv (keywordWeighted _ _ _) 3) 1 > q03) = true ↔ _
    rw [decide_eq_true_eq, q03_eq]
    exact Iff.rfl

theorem foldlMax_mem (a : Rat) (xs : List Rat) :
    xs.foldl (fun x y => if x < y then y else x) a = a ∨
      xs.foldl (fun x y => if x < y then y else x) a ∈ xs := by
  induction xs generalizing a with
  | nil => left; rfl
  | cons x xs ih =>
    simp only [List.foldl_cons]
    rcases ih (if a < x then x else a) with h | h
    · by_cases hax : a < x
      · right
        rw [h]
        simp [hax]
      · left
        rw [h]
        simp [hax]
    · right
      exact List.mem_cons_of_mem _ h

theorem le_foldlMax (a : Rat) (xs : List Rat) :
    a ≤ xs.foldl (fun x y => if x < y then y else x) a ∧
      ∀ x ∈ xs, x ≤ xs.foldl (fun x y => if x < y then y else x) a := by
  induction xs generalizing a with
  | nil => simp
  | cons x xs ih =>
    simp only [List.foldl_cons]
    refine ⟨?_, ?_⟩
    · refine le_trans ?_ (ih (if a < x then x else a)).1
      split_ifs with h
      · exact le_of_lt h
      · exact le_refl a
    · intro y hy
      rcases List.mem_cons.mp hy with rfl | hy'
      · refine le_trans ?_ (ih (if a < y then y else a)).1
        split_ifs with h
        · exact le_refl y
        · exact le_of_not_lt h
      · exact (ih (if a < x then x else a)).2 y hy'

theorem maxVals_mem (l : List Rat) (h : l ≠ []) : maxVals l ∈ l := by
  cases l with
  | nil => exact absurd rfl h
  | cons x xs =>
    rcases foldlMax_mem x xs with h' | h'
    · rw [maxVals, h']
      exact List.mem_cons_self _ _
    · exact List.mem_cons_of_mem _ h'

theorem le_maxVals (l : List Rat) : ∀ x ∈ l, x ≤ maxVals l := by
  intro x hx
  cases l with
  | nil => cases hx
  | cons y ys =>
    rcases List.mem_cons.mp hx with rfl | hx'
    · exact (le_foldlMax x ys).1
    · exact (le_foldlMax y ys).2 x hx'

/-- Projection of the score out of `_process_results`. -/
theorem process_results_score (flagged : Bool) (scores : List (String × Rat)) :
    (APIDetector.process_results flagged scores).toxicity_score =
      if scores.isEmpty then 0 else maxVals (scores.map Prod.snd) := by
  cases flagged
  · by_cases h : ((scores.filter (fun p => decide (p.2 > q07))).map Prod.fst).isEmpty <;>
      simp [APIDetector.process_results, h]
  · rfl

/-- Projection of the toxicity verdict out of `_process_results`. -/
theorem process_results_is_toxic (flagged : Bool) (scores : List (String × Rat)) :
    (APIDetector.process_results flagged scores).is_toxic =
      (flagged || !(scores.filter (fun p => decide (p.2 > q07))).isEmpty) := by
  cases flagged
  · unfold APIDetector.process_results
    rcases h : (scores.filter (fun p => decide (p.2 > q07))).map Prod.fst with _ | ⟨a, l⟩
    · have h' : (scores.filter (fun p => decide (p.2 > q07))) = [] :=
        List.map_eq_nil_iff.mp h
      simp [h, h']
    · have h' : (scores.filter (fun p => decide (p.2 > q07))) ≠ [] := by
        intro hc
        rw [hc] at h
        cases h
      simp only [h, h']
      simp [List.isEmpty_iff, h']
  · rfl

/-- C7: the remote result's score is the maximum of the per-category scores
(0 when the mapping is empty), and the toxicity verdict holds exactly when
the provider's flagged bit is set or some category score exceeds 7/10. -/
theorem C7_remote_normalization (flagged : Bool) (scores : List (String × Rat)) :
    ((scores = [] → (APIDetector.process_results flagged scores).toxicity_score = 0) ∧
     (scores ≠ [] → ∃ p ∈ scores,
        (APIDetector.process_results flagged scores).toxicity_score = p.2) ∧
     (∀ p ∈ scores, p.2 ≤ (APIDetector.process_results flagged scores).toxicity_score)) ∧
    ((APIDetector.process_results flagged scores).is_toxic = true ↔
      (flagged = true ∨ ∃ p ∈ scores, (7 : Rat) / 10 < p.2)) := by
  refine ⟨⟨?_, ?_, ?_⟩, ?_⟩
  · intro h
    rw [process_results_score, h]
    rfl
  · intro h
    rw [process_results_score]
    have hne : (scores.map Prod.snd) ≠ [] := by
      simpa using h
    have hmem := maxVals_mem (scores.map Prod.snd) hne
    rcases List.mem_map.mp hmem with ⟨p, hp, hep⟩
    refine ⟨p, hp, ?_⟩
    simp only [List.isEmpty_iff, h, if_neg]
    exact hep.symm
  · intro p hp
    rw [process_results_score]
    have h : scores ≠ [] := by
      intro hc
      rw [hc] at hp
      cases hp
    simp only [List.isEmpty_iff, h, if_neg]
    exact le_maxVals _ _ (List.mem_map_of_mem Prod.snd hp)
  · rw [process_results_is_toxic]
    cases flagged
    · simp only [Bool.false_or, Bool.not_eq_true', List.isEmpty_eq_false, ne_eq,
        Bool.false_eq_true, false_or]
      constructor
      · intro hne
        rcases List.exists_mem_of_ne_nil _ hne with ⟨p, hp⟩
        have hcond := List.of_mem_filter hp
        refine ⟨p, List.mem_of_mem_filter hp, ?_⟩
        rw [decide_eq_true_eq, gt_iff_lt, q07_eq] at hcond
        simpa using hcond
      · rintro ⟨p, hp, hgt⟩
        have hpf : p ∈ scores.filter (fun p => decide (p.2 > q07)) := by
          refine List.mem_filter.mpr ⟨hp, ?_⟩
          rw [decide_eq_true_eq, gt_iff_lt, q07_eq]
          simpa using hgt
        intro hc
        rw [hc] at hpf
        cases hpf
    · simp

/-- Witness for C7 at a concrete flagged-off response with one high score. -/
theorem C7_witness :
    (∃ p ∈ [("harassment", (9 : Rat))],
      (APIDetector.process_results false [("harassment", (9 : Rat))]).toxicity_score = p.2) ∧
    ((APIDetector.process_results false [("harassment", (9 : Rat))]).is_toxic = true ↔
      (false = true ∨ ∃ p ∈ [("harassment", (9 : Rat))], (7 : Rat) / 10 < p.2)) :=
  ⟨(C7_remote_normalization false _).1.2.1 (by decide),
   (C7_remote_normalization false _).2⟩

/-- C3 counterexample: the remote path applies no clamping, so a provider
response with a category score of 2 yields a toxicity score of 2, outside
the unit interval, refuting the claim for arbitrary provider responses. -/
theorem C3_counterexample :
    (APIDetector.process_results false [("violence", (2 : Rat))]).toxicity_score = 2 ∧
    ¬ ((APIDetector.process_results false [("violence", (2 : Rat))]).toxicity_score ≤ 1) := by
  decide

/-- C3 (amended): the keyword score always lies in the unit interval; the
remote and model scores are provider values taken without clamping, so they
lie in the unit interval whenever all provider category scores do. -/
theorem C3_score_range :
    (∀ text : String,
      0 ≤ (KeywordDetector.detect text).toxicity_score ∧
        (KeywordDetector.detect text).toxicity_score ≤ 1) ∧
    (∀ (flagged : Bool) (scores : List (String × Rat)),
      (∀ p ∈ scores, 0 ≤ p.2 ∧ p.2 ≤ 1) →
      0 ≤ (APIDetector.process_results flagged scores).toxicity_score ∧
        (APIDetector.process_results flagged scores).toxicity_score ≤ 1) ∧
    (∀ (results : List (String × Rat)) (text : String),
      (∀ p ∈ results, 0 ≤ p.2 ∧ p.2 ≤ 1) →
      0 ≤ (TransformerDetector.detect (some results) text).toxicity_score ∧
        (TransformerDetector.detect (some results) text).toxicity_score ≤ 1) := by
  refine ⟨?_, ?_, ?_⟩
  · intro text
    constructor
    · show 0 ≤ ratMin (pyDiv (keywordWeighted _ _ _) 3) 1
      rw [ratMin_eq_min, pyDiv_eq, keywordWeighted_eq]
      refine le_min ?_ (by norm_num)
      positivity
    · show ratMin (pyDiv (keywordWeighted _ _ _) 3) 1 ≤ 1
      rw [ratMin_eq_min]
      exact min_le_right _ _
  · intro flagged scores hb
    rw [process_results_score]
    rcases eq_or_ne scores [] with rfl | hne
    · simp
    · have hmap : (scores.map Prod.snd) ≠ [] := by simpa using hne
      have hmem := maxVals_mem (scores.map Prod.snd) hmap
      rcases List.mem_map.mp hmem with ⟨p, hp, hep⟩
      have := hb p hp
      simp only [List.isEmpty_iff, hne, if_neg]
      rw [← hep]
      exact this
  · intro results text hb
    have hscore : (TransformerDetector.detect (some results) text).toxicity_score =
        ((((results.map (fun p => ((⟨strLower p.1⟩ : String), p.2))).reverse.find?
          (fun p => p.1 == "toxic")).map Prod.snd).getD 0) := rfl
    rw [hscore]
    rcases hf : ((results.map (fun p => ((⟨strLower p.1⟩ : String), p.2))).reverse.find?
        (fun p => p.1 == "toxic")) with _ | p
    · rw [hf]
      norm_num
    · rw [hf]
      have hmem : p ∈ (results.map (fun p => ((⟨strLower p.1⟩ : String), p.2))).reverse :=
        List.mem_of_find?_eq_some hf
      rw [List.mem_reverse] at hmem
      rcases List.mem_map.mp hmem with ⟨q, hq, hpq⟩
      have hbq := hb q hq
      have hsnd : p.2 = q.2 := by rw [← hpq]
      simpa [Option.getD, hsnd] using hbq

/-- Witness for C3 at a keyword input and a remote response with scores
inside the unit interval. -/
theorem C3_witness :
    (0 ≤ (KeywordDetector.detect "kill").toxicity_score ∧
      (KeywordDetector.detect "kill").toxicity_score ≤ 1) ∧
    ((∀ p ∈ [("violence", mkRat 1 2)], 0 ≤ p.2 ∧ p.2 ≤ 1) ∧
      (0 ≤ (APIDetector.process_results false [("violence", mkRat 1 2)]).toxicity_score ∧
        (APIDetector.process_results false [("violence", mkRat 1 2)]).toxicity_score ≤ 1)) :=
  ⟨C3_score_range.1 "kill",
   by decide,
   C3_score_range.2.1 false [("violence", mkRat 1 2)] (by decide)⟩

/-- One unfolding step of the retry loop. -/
theorem moderationGo_succ (text : String) (outcomes : Nat → CallOutcome)
    (fuel attempt backoff : Nat) (delays : List Nat) :
    APIDetector.moderationGo text outcomes (fuel + 1) attempt backoff delays =
      match outcomes attempt with
      | .success flagged scores =>
        ⟨attempt, delays.reverse, APIDetector.process_results flagged scores⟩
      | .failure msg =>
        if attempt < APIDetector.max_attempts && rateLimited msg then
          APIDetector.moderationGo text outcomes fuel (attempt + 1) (backoff * 2)
            (backoff :: delays)
        else ⟨attempt, delays.reverse, KeywordDetector.detect text⟩ := rfl

/-- A retried rate-limited failure advances the loop, sleeping the backoff. -/
theorem moderationGo_retry (text : String) (outcomes : Nat → CallOutcome)
    (fuel attempt backoff : Nat) (delays : List Nat) (msg : String)
    (he : outcomes attempt = .failure msg)
    (hlt : attempt < APIDetector.max_attempts)
    (hrl : rateLimited msg = true) :
    APIDetector.moderationGo text outcomes (fuel + 1) attempt backoff delays =
      APIDetector.moderationGo text outcomes fuel (attempt + 1) (backoff * 2)
        (backoff :: delays) := by
  rw [moderationGo_succ, he]
  simp [hlt, hrl]

/-- A failure that is not retried halts the loop with the keyword fallback. -/
theorem moderationGo_halt (text : String) (outcomes : Nat → CallOutcome)
    (fuel attempt backoff : Nat) (delays : List Nat) (msg : String)
    (he : outcomes attempt = .failure msg)
    (hc : (decide (attempt < APIDetector.max_attempts) && rateLimited msg) = false) :
    APIDetector.moderationGo text outcomes (fuel + 1) attempt backoff delays =
      ⟨attempt, delays.reverse, KeywordDetector.detect text⟩ := by
  rw [moderationGo_succ, he]
  simp only [hc]
  rfl

/-- C4: against a provider whose calls all fail rate-limited, the loop makes
exactly 3 attempts with backoff sleeps 1 then 2 and returns the keyword
result; the first non-rate-limited failure ends the loop at that attempt
with the keyword result and no further sleeps. -/
theorem C4_retry_policy (text : String) (outcomes : Nat → CallOutcome) :
    ((∀ k, 1 ≤ k → k ≤ 3 → ∃ msg, outcomes k = .failure msg ∧ rateLimited msg = true) →
      APIDetector.openai_moderation text outcomes =
        ⟨3, [1, 2], KeywordDetector.detect text⟩) ∧
    (∀ k msg, 1 ≤ k → k ≤ 3 →
      (∀ j, 1 ≤ j → j < k → ∃ m, outcomes j = .failure m ∧ rateLimited m = true) →
      outcomes k = .failure msg → rateLimited msg = false →
      APIDetector.openai_moderation text outcomes =
        ⟨k, List.take (k - 1) [1, 2], KeywordDetector.detect text⟩) := by
  constructor
  · intro h
    obtain ⟨m1, e1, r1⟩ := h 1 (by omega) (by omega)
    obtain ⟨m2, e2, r2⟩ := h 2 (by omega) (by omega)
    obtain ⟨m3, e3, r3⟩ := h 3 (by omega) (by omega)
    calc APIDetector.openai_moderation text outcomes
        = APIDetector.moderationGo text outcomes (2 + 1) 1 1 [] := rfl
      _ = APIDetector.moderationGo text outcomes (1 + 1) 2 2 [1] :=
          moderationGo_retry text outcomes 2 1 1 [] m1 e1 (by decide) r1
      _ = APIDetector.moderationGo text outcomes (0 + 1) 3 4 [2, 1] :=
          moderationGo_retry text outcomes 1 2 2 [1] m2 e2 (by decide) r2
      _ = ⟨3, [1, 2], KeywordDetector.detect text⟩ := by
          rw [moderationGo_halt text outcomes 0 3 4 [2, 1] m3 e3
            (by simp [APIDetector.max_attempts])]
          rfl
  · intro k msg hk1 hk3 hpre hk hrl
    interval_cases k
    · calc APIDetector.openai_moderation text outcomes
          = APIDetector.moderationGo text outcomes (2 + 1) 1 1 [] := rfl
        _ = ⟨1, List.take 0 [1, 2], KeywordDetector.detect text⟩ := by
            rw [moderationGo_halt text outcomes 2 1 1 [] msg hk (by simp [hrl])]
            rfl
    · obtain ⟨m1, e1, r1⟩ := hpre 1 (by omega) (by omega)
      calc APIDetector.openai_moderation text outcomes
          = APIDetector.moderationGo text outcomes (2 + 1) 1 1 [] := rfl
        _ = APIDetector.moderationGo text outcomes (1 + 1) 2 2 [1] :=
            moderationGo_retry text outcomes 2 1 1 [] m1 e1 (by decide) r1
        _ = ⟨2, List.take 1 [1, 2], KeywordDetector.detect text⟩ := by
            rw [moderationGo_halt text outcomes 1 2 2 [1] msg hk (by simp [hrl])]
            rfl
    · obtain ⟨m1, e1, r1⟩ := hpre 1 (by omega) (by omega)
      obtain ⟨m2, e2, r2⟩ := hpre 2 (by omega) (by omega)
      calc APIDetector.openai_moderation text outcomes
          = APIDetector.moderationGo text outcomes (2 + 1) 1 1 [] := rfl
        _ = APIDetector.moderationGo text outcomes (1 + 1) 2 2 [1] :=
            moderationGo_retry text outcomes 2 1 1 [] m1 e1 (by decide) r1
        _ = APIDetector.moderationGo text outcomes (0 + 1) 3 4 [2, 1] :=
            moderationGo_retry text outcomes 1 2 2 [1] m2 e2 (by decide) r2
        _ = ⟨3, List.take 2 [1, 2], KeywordDetector.detect text⟩ := by
            rw [moderationGo_halt text outcomes 0 3 4 [2, 1] msg hk (by simp [hrl])]
            rfl

/-- Witness for C4: three attempts, sleeps 1 and 2, keyword fallback. -/
theorem C4_witness :
    APIDetector.openai_moderation "kill" ex429 =
      ⟨3, [1, 2], KeywordDetector.detect "kill"⟩ :=
  (C4_retry_policy "kill" ex429).1
    (fun _ _ _ => ⟨"HTTP 429 Too Many Requests", rfl, by decide⟩)

/-- C1 counterexample: with exactly 1 prior violation for the key (the spec
table says the second toxic utterance yields another warning record and a
warning-number-2 notification), the code instead creates a timeout-kind
violation row, issues a TimeoutRecord, and sends a speech_timeout notice. -/
theorem C1_counterexample :
    SpeechModerationConsumer.get_violation_count (exState 1) 1 1 = 1 ∧
    SpeechModerationConsumer.check_timeout (exState 1) 0 1 1 = false ∧
    exToxic.is_toxic = true ∧
    ((SpeechModerationConsumer.receive exClassify (exState 1) 0 exEvent).state.violations.map
      (fun v => v.violation_type) = ["warning", "timeout"]) ∧
    ¬ ((SpeechModerationConsumer.receive exClassify (exState 1) 0 exEvent).state.violations.map
      (fun v => v.violation_type) = ["warning", "warning"]) ∧
    (SpeechModerationConsumer.receive exClassify (exState 1) 0 exEvent).state.timeouts =
      [{ user_id := 1, stream_id := 1, duration_seconds := 60, expires_at := 60,
         is_active := true }] ∧
    (SpeechModerationConsumer.receive exClassify (exState 1) 0 exEvent).sent =
      [⟨.sender, .speech_toxic "kill" 2⟩, ⟨.sender, .speech_timeout 2 60⟩] := by
  decide

/-- C1 (amended): for a toxic classification with fresh prior count n,
n = 0 yields exactly one new warning-kind row plus a warning-number-1
notification; n = 1 yields a timeout-kind row plus a TimeoutRecord of
duration 60 and a speech_timeout (warning-number-2) notice; n >= 2 yields a
stream_stop-kind row and sets the stream status to ended. -/
theorem C1_escalation_table (classify : String → ClassificationResult)
    (st : ModState) (now : Nat) (ev : Event)
    (htype : ev.type = "speech_transcript")
    (htr : pyStrip ev.transcript ≠ "")
    (hct : SpeechModerationConsumer.check_timeout st now ev.user_id ev.stream_id = false)
    (htox : (classify (pyStrip ev.transcript)).is_toxic = true) :
    (SpeechModerationConsumer.get_violation_count st ev.user_id ev.stream_id = 0 →
      SpeechModerationConsumer.receive classify st now ev =
        ⟨{ st with violations := st.violations ++
            [{ user_id := ev.user_id, stream_id := ev.stream_id,
               transcript := pyStrip ev.transcript,
               toxicity_score := (classify (pyStrip ev.transcript)).toxicity_score,
               detected_words := (classify (pyStrip ev.transcript)).detected_words,
               violation_type := "warning" }] },
         [⟨.sender, .speech_toxic (pyStrip ev.transcript) 1⟩,
          ⟨.sender, .speech_warning 1⟩], true⟩) ∧
    (SpeechModerationConsumer.get_violation_count st ev.user_id ev.stream_id = 1 →
      SpeechModerationConsumer.receive classify st now ev =
        ⟨{ st with
            violations := st.violations ++
              [{ user_id := ev.user_id, stream_id := ev.stream_id,
                 transcript := pyStrip ev.transcript,
                 toxicity_score := (classify (pyStrip ev.transcript)).toxicity_score,
                 detected_words := (classify (pyStrip ev.transcript)).detected_words,
                 violation_type := "timeout" }],
            timeouts := st.timeouts ++
              [{ user_id := ev.user_id, stream_id := ev.stream_id,
                 duration_seconds := 60, expires_at := now + 60, is_active := true }] },
         [⟨.sender, .speech_toxic (pyStrip ev.transcript) 2⟩,
          ⟨.sender, .speech_timeout 2 60⟩], true⟩) ∧
    (2 ≤ SpeechModerationConsumer.get_violation_count st ev.user_id ev.stream_id →
      SpeechModerationConsumer.receive classify st now ev =
        ⟨{ st with
            violations := st.violations ++
              [{ user_id := ev.user_id, stream_id := ev.stream_id,
                 transcript := pyStrip ev.transcript,
                 toxicity_score := (classify (pyStrip ev.transcript)).toxicity_score,
                 detected_words := (classify (pyStrip ev.transcript)).detected_words,
                 violation_type := "stream_stop" }],
            streams := st.streams.map (fun sm =>
              if sm.id == ev.stream_id then
                { sm with status := "ended", ended_at := some now }
              else sm) },
         [⟨.sender, .speech_toxic (pyStrip ev.transcript)
             (SpeechModerationConsumer.get_violation_count st ev.user_id ev.stream_id + 1)⟩,
          ⟨.sender, .stream_stopped "Three speech violations detected"⟩], true⟩) := by
  refine ⟨?_, ?_, ?_⟩
  · intro hn
    rw [SpeechModerationConsumer.receive_toxic_warning classify st now ev htype htr hct htox hn]
    rfl
  · intro hn
    rw [SpeechModerationConsumer.receive_toxic_timeout classify st now ev htype htr hct htox hn]
    rfl
  · intro hn
    rw [SpeechModerationConsumer.receive_toxic_stop classify st now ev htype htr hct htox hn]
    have hvt : SpeechModerationConsumer.violationTypeFor
        (SpeechModerationConsumer.get_violation_count st ev.user_id ev.stream_id + 1) =
        "stream_stop" := by
      unfold SpeechModerationConsumer.violationTypeFor
      have h2 : ((SpeechModerationConsumer.get_violation_count st ev.user_id ev.stream_id + 1)
          == 2) = false := by
        simp only [beq_eq_false_iff_ne, ne_eq]
        omega
      have h3 : 3 ≤ SpeechModerationConsumer.get_violation_count st ev.user_id
          ev.stream_id + 1 := by omega
      simp [h2, h3]
    simp [SpeechModerationConsumer.log_violation, SpeechModerationConsumer.stop_stream, hvt]

/-- Witness for C1 at a fresh key: first toxic utterance yields warning 1. -/
theorem C1_witness :
    SpeechModerationConsumer.receive exClassify (exState 0) 0 exEvent =
      ⟨{ exState 0 with violations := (exState 0).violations ++ [exViol "warning"] },
       [⟨.sender, .speech_toxic "kill" 1⟩, ⟨.sender, .speech_warning 1⟩], true⟩ :=
  (C1_escalation_table exClassify (exState 0) 0 exEvent rfl (by decide) (by decide) rfl).1 rfl

namespace SpeechModerationConsumer

/-- Events of any other type are ignored without effects. -/
theorem receive_wrong_type (classify : String → ClassificationResult)
    (st : ModState) (now : Nat) (ev : Event)
    (htype : ev.type ≠ "speech_transcript") :
    receive classify st now ev = ⟨st, [], false⟩ := by
  unfold receive
  simp [htype]

/-- A transcript that is blank after stripping is dropped without effects. -/
theorem receive_blank (classify : String → ClassificationResult)
    (st : ModState) (now : Nat) (ev : Event)
    (htype : ev.type = "speech_transcript")
    (htr : pyStrip ev.transcript = "") :
    receive classify st now ev = ⟨st, [], false⟩ := by
  unfold receive
  simp [htype, htr]

/-- An active timeout gates processing: only a timeout_active notice is sent. -/
theorem receive_gated (classify : String → ClassificationResult)
    (st : ModState) (now : Nat) (ev : Event)
    (htype : ev.type = "speech_transcript")
    (htr : pyStrip ev.transcript ≠ "")
    (hct : check_timeout st now ev.user_id ev.stream_id = true) :
    receive classify st now ev =
      ⟨st, [⟨.sender, .timeout_active "You are currently timed out and cannot speak"⟩],
        false⟩ := by
  unfold receive
  simp [htype, htr, hct]

/-- A clean classification only sends the speech_clean echo. -/
theorem receive_clean (classify : String → ClassificationResult)
    (st : ModState) (now : Nat) (ev : Event)
    (htype : ev.type = "speech_transcript")
    (htr : pyStrip ev.transcript ≠ "")
    (hct : check_timeout st now ev.user_id ev.stream_id = false)
    (htox : (classify (pyStrip ev.transcript)).is_toxic = false) :
    receive classify st now ev =
      ⟨st, [⟨.sender, .speech_clean (pyStrip ev.transcript)⟩], true⟩ := by
  unfold receive
  simp [htype, htr, hct, htox]

end SpeechModerationConsumer

/-- C2 counterexample: in a run that issues a timeout (1 prior violation),
every emitted notification, the timeout notice included, targets only the
originating client's socket; nothing is sent to the stream group, so the
timeout is not broadcast to all participants. -/
theorem C2_counterexample :
    ((SpeechModerationConsumer.receive exClassify (exState 1) 0 exEvent).sent =
      [⟨.sender, .speech_toxic "kill" 2⟩, ⟨.sender, .speech_timeout 2 60⟩]) ∧
    ¬ (∃ s ∈ (SpeechModerationConsumer.receive exClassify (exState 1) 0 exEvent).sent,
        s.target = Target.group) := by
  decide

/-- C2 (amended): every notification the consumer emits, timeout and
termination notices included, is delivered only to the originating client;
no notification is ever sent to the stream group. -/
theorem C2_sender_only (classify : String → ClassificationResult)
    (st : ModState) (now : Nat) (ev : Event) :
    ∀ s ∈ (SpeechModerationConsumer.receive classify st now ev).sent,
      s.target = Target.sender := by
  intro s hs
  by_cases h1 : ev.type = "speech_transcript"
  case neg =>
    rw [SpeechModerationConsumer.receive_wrong_type classify st now ev h1] at hs
    cases hs
  by_cases h2 : pyStrip ev.transcript = ""
  case pos =>
    rw [SpeechModerationConsumer.receive_blank classify st now ev h1 h2] at hs
    cases hs
  by_cases hctp : SpeechModerationConsumer.check_timeout st now ev.user_id ev.stream_id = true
  case pos =>
    rw [SpeechModerationConsumer.receive_gated classify st now ev h1 h2 hctp] at hs
    rcases List.mem_singleton.mp hs with rfl
    rfl
  have hct : SpeechModerationConsumer.check_timeout st now ev.user_id ev.stream_id = false := by
    simpa using hctp
  by_cases htoxp : (classify (pyStrip ev.transcript)).is_toxic = true
  case neg =>
    have htox : (classify (pyStrip ev.transcript)).is_toxic = false := by simpa using htoxp
    rw [SpeechModerationConsumer.receive_clean classify st now ev h1 h2 hct htox] at hs
    rcases List.mem_singleton.mp hs with rfl
    rfl
  have htox := htoxp
  have hsplit : SpeechModerationConsumer.get_violation_count st ev.user_id ev.stream_id = 0 ∨
      SpeechModerationConsumer.get_violation_count st ev.user_id ev.stream_id = 1 ∨
      2 ≤ SpeechModerationConsumer.get_violation_count st ev.user_id ev.stream_id := by
    omega
  rcases hsplit with hn | hn | hn
  · rw [SpeechModerationConsumer.receive_toxic_warning classify st now ev h1 h2 hct htox hn] at hs
    rcases List.mem_cons.mp hs with rfl | hs'
    · rfl
    · rcases List.mem_singleton.mp hs' with rfl
      rfl
  · rw [SpeechModerationConsumer.receive_toxic_timeout classify st now ev h1 h2 hct htox hn] at hs
    rcases List.mem_cons.mp hs with rfl | hs'
    · rfl
    · rcases List.mem_singleton.mp hs' with rfl
      rfl
  · rw [SpeechModerationConsumer.receive_toxic_stop classify st now ev h1 h2 hct htox hn] at hs
    rcases List.mem_cons.mp hs with rfl | hs'
    · rfl
    · rcases List.mem_singleton.mp hs' with rfl
      rfl

/-- Witness for C2 at a concrete emitted notification. -/
theorem C2_witness :
    (⟨Target.sender, Notif.speech_toxic "kill" 1⟩ : Sent) ∈
      (SpeechModerationConsumer.receive exClassify (exState 0) 0 exEvent).sent ∧
    (⟨Target.sender, Notif.speech_toxic "kill" 1⟩ : Sent).target = Target.sender :=
  ⟨by decide, C2_sender_only exClassify (exState 0) 0 exEvent _ (by decide)⟩

/-- Appending one violation row for the key increments its derived count. -/
theorem count_log (st : ModState) (u s : Nat) (tr : String) (sc : Rat)
    (dw : List String) (n : Nat) :
    SpeechModerationConsumer.get_violation_count
      (SpeechModerationConsumer.log_violation st u s tr sc dw n) u s =
      SpeechModerationConsumer.get_violation_count st u s + 1 := by
  simp [SpeechModerationConsumer.get_violation_count,
    SpeechModerationConsumer.log_violation, List.filter_append]

/-- C9 counterexample: with exactly 1 prior violation and no active timeout,
replaying the identical toxic transcript twice creates only one new row: the
first replay issues a timeout that gates the second, which is answered with
timeout_active, so the derived count advances by 1, not 2. -/
theorem C9_counterexample :
    SpeechModerationConsumer.get_violation_count (exState 1) 1 1 = 1 ∧
    SpeechModerationConsumer.check_timeout (exState 1) 0 1 1 = false ∧
    exToxic.is_toxic = true ∧
    (SpeechModerationConsumer.receive exClassify
      (SpeechModerationConsumer.receive exClassify (exState 1) 0 exEvent).state 0
      exEvent).state.violations.length = (exState 1).violations.length + 1 ∧
    SpeechModerationConsumer.get_violation_count
      (SpeechModerationConsumer.receive exClassify
        (SpeechModerationConsumer.receive exClassify (exState 1) 0 exEvent).state 0
        exEvent).state 1 1 = 2 ∧
    (SpeechModerationConsumer.receive exClassify
      (SpeechModerationConsumer.receive exClassify (exState 1) 0 exEvent).state 0
      exEvent).sent =
      [⟨.sender, .timeout_active "You are currently timed out and cannot speak"⟩] := by
  decide

/-- C9 (amended): with no active timeout and a prior count other than 1 (at
prior count 1 the first replay issues a timeout that gates the second),
processing the identical toxic transcript twice creates two independent
violation rows and advances the derived count by exactly 2. -/
theorem C9_duplicate_replay (classify : String → ClassificationResult)
    (st : ModState) (now : Nat) (ev : Event)
    (htype : ev.type = "speech_transcript")
    (htr : pyStrip ev.transcript ≠ "")
    (hct : SpeechModerationConsumer.check_timeout st now ev.user_id ev.stream_id = false)
    (htox : (classify (pyStrip ev.transcript)).is_toxic = true)
    (hn : SpeechModerationConsumer.get_violation_count st ev.user_id ev.stream_id ≠ 1) :
    ((SpeechModerationConsumer.receive classify
        (SpeechModerationConsumer.receive classify st now ev).state now
        ev).state.violations.length = st.violations.length + 2) ∧
    (SpeechModerationConsumer.get_violation_count
        (SpeechModerationConsumer.receive classify
          (SpeechModerationConsumer.receive classify st now ev).state now ev).state
        ev.user_id ev.stream_id =
      SpeechModerationConsumer.get_violation_count st ev.user_id ev.stream_id + 2) := by
  have hsplit : SpeechModerationConsumer.get_violation_count st ev.user_id ev.stream_id = 0 ∨
      2 ≤ SpeechModerationConsumer.get_violation_count st ev.user_id ev.stream_id := by
    omega
  rcases hsplit with h0 | h2
  · rw [SpeechModerationConsumer.receive_toxic_warning classify st now ev
      htype htr hct htox h0]
    dsimp only
    set X := SpeechModerationConsumer.log_violation st ev.user_id ev.stream_id
      (pyStrip ev.transcript) (classify (pyStrip ev.transcript)).toxicity_score
      (classify (pyStrip ev.transcript)).detected_words 1 with hX
    have hctX : SpeechModerationConsumer.check_timeout X now ev.user_id ev.stream_id =
        false := hct
    have hcntX : SpeechModerationConsumer.get_violation_count X ev.user_id ev.stream_id =
        1 := by
      rw [hX, count_log, h0]
    rw [SpeechModerationConsumer.receive_toxic_timeout classify X now ev
      htype htr hctX htox hcntX]
    dsimp only
    constructor
    · rw [hX]
      simp [SpeechModerationConsumer.log_violation, SpeechModerationConsumer.issue_timeout]
    · rw [count_log]
      have hissue : SpeechModerationConsumer.get_violation_count
          (SpeechModerationConsumer.issue_timeout X now ev.user_id ev.stream_id
            SpeechModerationConsumer.timeout_seconds) ev.user_id ev.stream_id =
          SpeechModerationConsumer.get_violation_count X ev.user_id ev.stream_id := rfl
      rw [hissue, hcntX, h0]
  · rw [SpeechModerationConsumer.receive_toxic_stop classify st now ev
      htype htr hct htox h2]
    dsimp only
    set Y := SpeechModerationConsumer.log_violation
      (SpeechModerationConsumer.stop_stream st now ev.stream_id)
      ev.user_id ev.stream_id (pyStrip ev.transcript)
      (classify (pyStrip ev.transcript)).toxicity_score
      (classify (pyStrip ev.transcript)).detected_words
      (SpeechModerationConsumer.get_violation_count st ev.user_id ev.stream_id + 1) with hY
    have hctY : SpeechModerationConsumer.check_timeout Y now ev.user_id ev.stream_id =
        false := hct
    have hcntY : SpeechModerationConsumer.get_violation_count Y ev.user_id ev.stream_id =
        SpeechModerationConsumer.get_violation_count st ev.user_id ev.stream_id + 1 := by
      rw [hY, count_log]
      rfl
    have h2Y : 2 ≤ SpeechModerationConsumer.get_violation_count Y ev.user_id
        ev.stream_id := by
      rw [hcntY]
      omega
    rw [SpeechModerationConsumer.receive_toxic_stop classify Y now ev
      htype htr hctY htox h2Y]
    dsimp only
    constructor
    · rw [hY]
      simp [SpeechModerationConsumer.log_violation, SpeechModerationConsumer.stop_stream]
    · rw [count_log]
      have hstop : SpeechModerationConsumer.get_violation_count
          (SpeechModerationConsumer.stop_stream Y now ev.stream_id)
          ev.user_id ev.stream_id =
          SpeechModerationConsumer.get_violation_count Y ev.user_id ev.stream_id := rfl
      rw [hstop, hcntY]

/-- Witness for C9 at a fresh key: two replays yield two rows and count 2. -/
theorem C9_witness :
    ((SpeechModerationConsumer.receive exClassify
        (SpeechModerationConsumer.receive exClassify (exState 0) 0 exEvent).state 0
        exEvent).state.violations.length = (exState 0).violations.length + 2) ∧
    (SpeechModerationConsumer.get_violation_count
        (SpeechModerationConsumer.receive exClassify
          (SpeechModerationConsumer.receive exClassify (exState 0) 0 exEvent).state 0
          exEvent).state 1 1 =
      SpeechModerationConsumer.get_violation_count (exState 0) 1 1 + 2) :=
  C9_duplicate_replay exClassify (exState 0) 0 exEvent rfl (by decide) (by decide) rfl
    (by decide)

theorem subAt_self_append (w t : List Char) : subAt w (w ++ t) = true := by
  induction w with
  | nil => rfl
  | cons c ws ih => simp [subAt, ih]

theorem containsSub_cons_of (w : List Char) (x : Char) (t : List Char)
    (h : containsSub w t = true) : containsSub w (x :: t) = true := by
  cases t with
  | nil =>
    simp only [containsSub] at h ⊢
    simp [h]
  | cons y ys =>
    simp only [containsSub] at h ⊢
    simp [h]

theorem containsSub_append_mid (pre w suf : List Char) :
    containsSub w (pre ++ (w ++ suf)) = true := by
  induction pre with
  | nil =>
    cases w with
    | nil => cases suf <;> simp [containsSub, subAt]
    | cons c ws =>
      show containsSub (c :: ws) ((c :: ws) ++ suf) = true
      cases hcat : (c :: ws) ++ suf with
      | nil => cases hcat
      | cons y ys =>
        simp only [containsSub]
        rw [← hcat, subAt_self_append]
        simp
  | cons x pre ih => exact containsSub_cons_of _ _ _ ih

theorem string_data_append (a b : String) : (a ++ b).data = a.data ++ b.data := rfl

theorem mkReason_contains (rating publisher : String) :
    containsSub rating.data (mkReason rating publisher).data = true ∧
    containsSub publisher.data (mkReason rating publisher).data = true := by
  constructor
  · have e : (mkReason rating publisher).data =
        ("Fact Check: This claim was rated " ++ String.singleton quoteChar).data ++
          (rating.data ++
            (String.singleton quoteChar ++ " by " ++ publisher ++ ".").data) := by
      simp [mkReason, string_data_append, List.append_assoc]
    rw [e]
    exact containsSub_append_mid _ _ _
  · have e : (mkReason rating publisher).data =
        ("Fact Check: This claim was rated " ++ String.singleton quoteChar ++ rating ++
            String.singleton quoteChar ++ " by ").data ++
          (publisher.data ++ (".").data) := by
      simp [mkReason, string_data_append, List.append_assoc]
    rw [e]
    exact containsSub_append_mid _ _ _

theorem checkClaims_false_iff (claims : List FCClaim) :
    (checkClaims claims).1 = false ↔ ∃ c ∈ claims, firstReviewFlagged c = true := by
  induction claims with
  | nil => simp [checkClaims]
  | cons c rest ih =>
    obtain ⟨rev⟩ := c
    cases rev with
    | nil =>
      simp only [checkClaims]
      rw [ih]
      constructor
      · rintro ⟨c', hc', hf⟩
        exact ⟨c', List.mem_cons_of_mem _ hc', hf⟩
      · rintro ⟨c', hc', hf⟩
        rcases List.mem_cons.mp hc' with rfl | hm
        · cases hf
        · exact ⟨c', hm, hf⟩
    | cons r rs =>
      by_cases hf : ratingFlagged (ratingOf r) = true
      · simp [checkClaims, hf, firstReviewFlagged]
      · have hf' : ratingFlagged (ratingOf r) = false := by
          simpa using hf
        simp only [checkClaims, hf', Bool.false_eq_true]
        rw [if_neg (by simp [hf'])]
        rw [ih]
        constructor
        · rintro ⟨c', hc', hfc⟩
          exact ⟨c', List.mem_cons_of_mem _ hc', hfc⟩
        · rintro ⟨c', hc', hfc⟩
          rcases List.mem_cons.mp hc' with rfl | hm
          · rw [show firstReviewFlagged ⟨r :: rs⟩ = ratingFlagged (ratingOf r) from rfl,
              hf'] at hfc
            cases hfc
          · exact ⟨c', hm, hfc⟩

theorem checkClaims_first (pre : List FCClaim) (c : FCClaim) (post : List FCClaim)
    (r : ClaimReview) (rs : List ClaimReview)
    (hpre : ∀ c' ∈ pre, firstReviewFlagged c' = false)
    (hr : c.claimReview = r :: rs)
    (hf : ratingFlagged (ratingOf r) = true) :
    checkClaims (pre ++ c :: post) = (false, mkReason (ratingOf r) r.publisherName) := by
  induction pre with
  | nil =>
    obtain ⟨rev⟩ := c
    simp only at hr
    subst hr
    simp [checkClaims, hf]
  | cons p pre ih =>
    have hp := hpre p (List.mem_cons_self _ _)
    obtain ⟨prev⟩ := p
    cases prev with
    | nil =>
      show checkClaims (pre ++ c :: post) = _
      exact ih (fun c' hc' => hpre c' (List.mem_cons_of_mem _ hc'))
    | cons pr prs =>
      have hpf : ratingFlagged (ratingOf pr) = false := by
        rw [show firstReviewFlagged ⟨pr :: prs⟩ = ratingFlagged (ratingOf pr) from rfl] at hp
        exact hp
      show checkClaims (⟨pr :: prs⟩ :: (pre ++ c :: post)) = _
      simp only [checkClaims, hpf, Bool.false_eq_true, if_neg]
      rw [if_neg (by simp [hpf])]
      exact ih (fun c' hc' => hpre c' (List.mem_cons_of_mem _ hc'))

/-- C8: the fact-check call fails open (correct with empty reason) on a
missing credential, a failed call, or an empty claims list; it returns
not-correct exactly when some claim's first review rating contains a
denylisted falsity keyword, taking the reason (which names the rating and
the publisher) from the first such claim. -/
theorem C8_fact_check :
    (∀ call, is_factually_correct none call = (true, "")) ∧
    (∀ key : String, is_factually_correct (some key) (Except.error ()) = (true, "")) ∧
    (∀ key : String, is_factually_correct (some key) (Except.ok []) = (true, "")) ∧
    (∀ (key : String) (claims : List FCClaim),
      ((is_factually_correct (some key) (Except.ok claims)).1 = false ↔
        ∃ c ∈ claims, firstReviewFlagged c = true)) ∧
    (∀ (key : String) (pre : List FCClaim) (c : FCClaim) (post : List FCClaim)
        (r : ClaimReview) (rs : List ClaimReview),
      (∀ c' ∈ pre, firstReviewFlagged c' = false) →
      c.claimReview = r :: rs → ratingFlagged (ratingOf r) = true →
      is_factually_correct (some key) (Except.ok (pre ++ c :: post)) =
        (false, mkReason (ratingOf r) r.publisherName)) ∧
    (∀ rating publisher : String,
      containsSub rating.data (mkReason rating publisher).data = true ∧
      containsSub publisher.data (mkReason rating publisher).data = true) := by
  refine ⟨fun call => rfl, fun key => rfl, fun key => rfl, ?_, ?_, mkReason_contains⟩
  · intro key claims
    cases claims with
    | nil => simp [is_factually_correct]
    | cons c rest =>
      show (checkClaims (c :: rest)).1 = false ↔ _
      exact checkClaims_false_iff (c :: rest)
  · intro key pre c post r rs hpre hr hf
    have hne : (pre ++ c :: post) ≠ [] := by
      cases pre <;> simp
    show (if (pre ++ c :: post).isEmpty then ((true, "") : Bool × String)
        else checkClaims (pre ++ c :: post)) = _
    rw [if_neg (by simp [List.isEmpty_iff, hne])]
    exact checkClaims_first pre c post r rs hpre hr hf

/-- Witness for C8: a single claim rated False by Snopes is reported
not-correct with the reason naming the rating and publisher. -/
theorem C8_witness :
    is_factually_correct (some "key")
        (Except.ok [⟨[⟨"False", "Snopes"⟩]⟩]) =
      (false, mkReason (ratingOf ⟨"False", "Snopes"⟩) "Snopes") :=
  C8_fact_check.2.2.2.2.1 "key" [] ⟨[⟨"False", "Snopes"⟩]⟩ [] ⟨"False", "Snopes"⟩ []
    (fun c hc => absurd hc (List.not_mem_nil c)) rfl (by decide)

end SafeChat
